import Mathlib

/-!
Shallow embedding of the honeypot scam-detector service.

The conversation engine (the default-exported `handler` of the main API
module) is modelled as a pure function from an in-memory session store, a
request and an oracle outcome to a result record holding the HTTP status,
the JSON body, the updated store and the (at most one) finalization report
submitted to the external evaluation endpoint.  The auxiliary
liveness/detect handler is modelled separately as `liveHandler`.
-/

namespace Honeypot

/-- Values appearing in JSON response bodies produced by the handlers. -/
inductive FieldVal where
  | str (s : String)
  | bool (b : Bool)
deriving DecidableEq

/-- A JSON object body, as an ordered list of key/value fields. -/
abbrev Body := List (String × FieldVal)

/-- Lookup of a field in a response body. -/
def fieldVal (b : Body) (key : String) : Option FieldVal :=
  match b with
  | [] => none
  | (k, v) :: rest => if k = key then some v else fieldVal rest key

/-- JS string falsiness for an optional string: `undefined`/missing and `""` are falsy. -/
def jsFalsyStr : Option String → Bool
  | none => true
  | some s => s.isEmpty

/-- JS `x || d` for an optional string `x`: missing or empty falls back to `d`. -/
def jsOr (o : Option String) (d : String) : String :=
  match o with
  | some s => if s.isEmpty then d else s
  | none => d

/-- Boolean test that `pat` starts the list `l` (character-wise). -/
def listLeads : List Char → List Char → Bool
  | [], _ => true
  | _ :: _, [] => false
  | a :: as, b :: bs => a == b && listLeads as bs

/-- Boolean test that `pat` occurs contiguously inside `hay`. -/
def listInfix (pat : List Char) : List Char → Bool
  | [] => pat.isEmpty
  | c :: rest => listLeads pat (c :: rest) || listInfix pat rest

/-- `containsSub hay pat` holds when `pat` is a substring of `hay`; this is what
the source's literal-alternation regexes (`/otp|one time password/.test(lower)` etc.)
compute on the lowercased text. -/
def containsSub (hay pat : String) : Bool := listInfix pat.data hay.data

/-- ASCII lowercasing, modelling JavaScript `text.toLowerCase()` on the
texts involved (per-character lowercasing). -/
def toLowerJS (s : String) : String := String.mk (s.data.map Char.toLower)

/-- Per-session state of the in-memory `sessionState` map:
`{ turns: 0, scamIndicators: new Set(), requestedData: new Set(), finalized: false }`. -/
structure Session where
  turns : Nat
  scamIndicators : List String
  requestedData : List String
  finalized : Bool
deriving DecidableEq

/-- Freshly created session state. -/
def Session.fresh : Session :=
  { turns := 0, scamIndicators := [], requestedData := [], finalized := false }

/-- JS `Set.add`: append the tag unless already present (insertion order kept). -/
def addTag (l : List String) (t : String) : List String :=
  if t ∈ l then l else l ++ [t]

/-- One conditional `state.requestedData.add(tag)` line of the extraction block. -/
def tagRequested (c : Bool) (tag : String) (s : Session) : Session :=
  if c then { s with requestedData := addTag s.requestedData tag } else s

/-- One conditional `state.scamIndicators.add(tag)` line of the extraction block. -/
def tagIndicator (c : Bool) (tag : String) (s : Session) : Session :=
  if c then { s with scamIndicators := addTag s.scamIndicators tag } else s

/-- The five extraction rules of the source, applied to the already-lowercased
text in source order:
`/otp|one time password/ → OTP`, `/upi|account number|bank/ → Bank Details`,
`/link|click/ → Phishing Link`, `/blocked|suspended|urgent|hours/ → Threat / Urgency`,
`/won|prize|reward/ → Lottery Scam`. -/
def applyRulesLower (s : Session) (lower : String) : Session :=
  tagIndicator (containsSub lower "won" || containsSub lower "prize" || containsSub lower "reward")
    "Lottery Scam"
    (tagIndicator
      (containsSub lower "blocked" || containsSub lower "suspended" ||
        containsSub lower "urgent" || containsSub lower "hours")
      "Threat / Urgency"
      (tagIndicator (containsSub lower "link" || containsSub lower "click") "Phishing Link"
        (tagRequested
          (containsSub lower "upi" || containsSub lower "account number" ||
            containsSub lower "bank")
          "Bank Details"
          (tagRequested (containsSub lower "otp" || containsSub lower "one time password") "OTP"
            s))))

/-- The scam-intelligence extraction block: `const lower = text.toLowerCase()`
followed by the five rule lines. -/
def applyRules (s : Session) (text : String) : Session :=
  applyRulesLower s (toLowerJS text)

/-- Result of the spec-level extractor contract on one text. -/
structure Extraction where
  scamIndicators : List String
  requestedData : List String
deriving DecidableEq

/-- The indicator extractor as a pure function: the source's rule block run
against a fresh session, returning just the two tag sets. -/
def extract (text : String) : Extraction :=
  { scamIndicators := (applyRules Session.fresh text).scamIndicators
    requestedData := (applyRules Session.fresh text).requestedData }

/-- Deterministic baseline reply table keyed by the post-increment turn counter. -/
def baseReply (turns : Nat) : String :=
  if turns = 1 then "Why is my account being suspended?"
  else if turns = 2 then "What exactly do you need to verify?"
  else if turns = 3 then "I haven’t received any official notification."
  else "Can you share official confirmation for this request?"

/-- Outcome of one call to the external generative-text oracle:
the fetch/json chain threw, or it produced a response whose
`candidates[0].content.parts[0].text` path is `text` (missing when `none`). -/
inductive OracleOutcome where
  | failure
  | output (text : Option String)
deriving DecidableEq

/-- `generateGeminiReply`: `null` on any thrown error, otherwise the optional
text extracted from the response. -/
def generateGeminiReply : OracleOutcome → Option String
  | .failure => none
  | .output t => t

/-- The oracle run failed, timed out, or yielded empty/missing output —
exactly the cases where `geminiReply || baseReply` falls back. -/
def oracleFails : OracleOutcome → Bool
  | .failure => true
  | .output none => true
  | .output (some s) => s.isEmpty

/-- Request metadata passthrough fields. -/
structure Metadata where
  channel : Option String
  language : Option String
  locale : Option String
deriving DecidableEq

/-- An inbound HTTP request as seen by the main handler: method (never
inspected by the conversation handler), the `x-api-key` header, and the
envelope fields it reads. -/
structure Request where
  method : String
  apiKey : Option String
  sessionId : Option String
  text : Option String
  metadata : Metadata
deriving DecidableEq

/-- The intelligence payload POSTed to the evaluation endpoint. -/
structure Report where
  sessionId : String
  scamDetected : Bool
  scamIndicators : List String
  requestedSensitiveData : List String
  channel : String
  language : String
  locale : String
  totalTurns : Nat
deriving DecidableEq

/-- The in-memory `sessionState` map. -/
abbrev Store := List (String × Session)

/-- Lookup of a session by id. -/
def storeFind (st : Store) (sid : String) : Option Session :=
  match st with
  | [] => none
  | (k, v) :: rest => if k = sid then some v else storeFind rest sid

/-- Write a session back under its id (insert or overwrite). -/
def storeSet (st : Store) (sid : String) (s : Session) : Store :=
  match st with
  | [] => [(sid, s)]
  | (k, v) :: rest => if k = sid then (k, s) :: rest else (k, v) :: storeSet rest sid s

/-- The session a handler invocation works on: the stored one, or a fresh one
created on first appearance of the id. -/
def sessionOf (st : Store) (sid : String) : Session :=
  (storeFind st sid).getD Session.fresh

/-- Turn counter of a session id (0 before creation). -/
def turnsOf (st : Store) (sid : String) : Nat := (sessionOf st sid).turns

/-- Finalized flag of a session id. -/
def finalizedOf (st : Store) (sid : String) : Bool := (sessionOf st sid).finalized

/-- Accumulated scam-indicator set of a session id. -/
def indicatorsOf (st : Store) (sid : String) : List String := (sessionOf st sid).scamIndicators

/-- Accumulated requested-data set of a session id. -/
def requestedOf (st : Store) (sid : String) : List String := (sessionOf st sid).requestedData

/-- `state.turns += 1` followed by the extraction block. -/
def stepSession (s : Session) (text : String) : Session :=
  applyRules { s with turns := s.turns + 1 } text

/-- Result of one handler invocation: HTTP status, JSON body, updated store,
and the report submitted to the evaluation endpoint, if any. -/
structure HandlerResult where
  status : Nat
  body : Body
  store : Store
  report : Option Report
deriving DecidableEq

/-- The processed branch of the main handler (after auth and envelope checks):
increment the turn counter, run extraction, pick the baseline reply, apply the
oracle result with `||` fallback, fire finalization when `turns >= 4 && !finalized`,
and answer 200. -/
def handleMessage (store : Store) (sid text : String) (md : Metadata) (o : OracleOutcome) :
    HandlerResult :=
  let s1 := stepSession (sessionOf store sid) text
  let reply := jsOr (generateGeminiReply o) (baseReply s1.turns)
  if 4 ≤ s1.turns ∧ s1.finalized = false then
    { status := 200
      body := [("status", FieldVal.str "success"), ("reply", FieldVal.str reply)]
      store := storeSet store sid { s1 with finalized := true }
      report := some
        { sessionId := sid
          scamDetected := true
          scamIndicators := s1.scamIndicators
          requestedSensitiveData := s1.requestedData
          channel := jsOr md.channel "Unknown"
          language := jsOr md.language "Unknown"
          locale := jsOr md.locale "Unknown"
          totalTurns := s1.turns } }
  else
    { status := 200
      body := [("status", FieldVal.str "success"), ("reply", FieldVal.str reply)]
      store := storeSet store sid s1
      report := none }

/-- The main conversation handler:
401 when `x-api-key` is missing (falsy), 403 when it differs from `dev-key`,
an early 200 canned reply when `sessionId` or `message.text` is falsy,
otherwise the processed branch. -/
def handler (store : Store) (req : Request) (o : OracleOutcome) : HandlerResult :=
  if jsFalsyStr req.apiKey then
    { status := 401, body := [("error", FieldVal.str "x-api-key missing")],
      store := store, report := none }
  else if req.apiKey ≠ some "dev-key" then
    { status := 403, body := [("error", FieldVal.str "Invalid API key")],
      store := store, report := none }
  else if jsFalsyStr req.sessionId || jsFalsyStr req.text then
    { status := 200,
      body := [("status", FieldVal.str "success"),
               ("reply", FieldVal.str "Can you explain this message?")],
      store := store, report := none }
  else
    handleMessage store (req.sessionId.getD "") (req.text.getD "") req.metadata o

/-- Session id a request addresses (after the falsiness checks it is the
literal `sessionId` string). -/
def sidStr (req : Request) : String := req.sessionId.getD ""

/-- A request passes the gateway and reaches the session-handling branch. -/
def Request.processed (req : Request) : Bool :=
  req.apiKey == some "dev-key" && !jsFalsyStr req.sessionId && !jsFalsyStr req.text

/-- One inbound request together with the oracle outcome for its handling. -/
structure Event where
  req : Request
  oracle : OracleOutcome

/-- Fold the handler over a list of events, collecting the submitted reports. -/
def runFrom (st : Store) : List Event → Store × List Report
  | [] => (st, [])
  | e :: es =>
    let r := handler st e.req e.oracle
    let rest := runFrom r.store es
    (rest.1, r.report.toList ++ rest.2)

/-- A whole run of the service from the empty session store. -/
def run (es : List Event) : Store × List Report := runFrom [] es

/-- Number of reports submitted for a given session id. -/
def reportsFor (sid : String) (reps : List Report) : Nat :=
  (reps.filter fun r => r.sessionId == sid).length

/-- Number of events a run processes for a given session id. -/
def countProcessed (sid : String) (es : List Event) : Nat :=
  (es.filter fun e => e.req.processed && sidStr e.req == sid).length

/-! ### Basic lemmas about the session-state operations -/

theorem subset_addTag (l : List String) (t : String) : l ⊆ addTag l t := by
  unfold addTag
  split
  · exact fun a h => h
  · exact List.subset_append_left l [t]

theorem mem_addTag_self (l : List String) (t : String) : t ∈ addTag l t := by
  unfold addTag
  split
  · assumption
  · simp

theorem tagRequested_turns (c : Bool) (tag : String) (s : Session) :
    (tagRequested c tag s).turns = s.turns := by
  unfold tagRequested; split <;> rfl

theorem tagRequested_finalized (c : Bool) (tag : String) (s : Session) :
    (tagRequested c tag s).finalized = s.finalized := by
  unfold tagRequested; split <;> rfl

theorem tagRequested_indicators (c : Bool) (tag : String) (s : Session) :
    (tagRequested c tag s).scamIndicators = s.scamIndicators := by
  unfold tagRequested; split <;> rfl

theorem tagRequested_subset (c : Bool) (tag : String) (s : Session) :
    s.requestedData ⊆ (tagRequested c tag s).requestedData := by
  unfold tagRequested
  split
  · exact subset_addTag _ _
  · exact fun a h => h

theorem tagIndicator_turns (c : Bool) (tag : String) (s : Session) :
    (tagIndicator c tag s).turns = s.turns := by
  unfold tagIndicator; split <;> rfl

theorem tagIndicator_finalized (c : Bool) (tag : String) (s : Session) :
    (tagIndicator c tag s).finalized = s.finalized := by
  unfold tagIndicator; split <;> rfl

theorem tagIndicator_requested (c : Bool) (tag : String) (s : Session) :
    (tagIndicator c tag s).requestedData = s.requestedData := by
  unfold tagIndicator; split <;> rfl

theorem tagIndicator_subset (c : Bool) (tag : String) (s : Session) :
    s.scamIndicators ⊆ (tagIndicator c tag s).scamIndicators := by
  unfold tagIndicator
  split
  · exact subset_addTag _ _
  · exact fun a h => h

theorem applyRulesLower_turns (s : Session) (lower : String) :
    (applyRulesLower s lower).turns = s.turns := by
  unfold applyRulesLower
  simp [tagIndicator_turns, tagRequested_turns]

theorem applyRulesLower_finalized (s : Session) (lower : String) :
    (applyRulesLower s lower).finalized = s.finalized := by
  unfold applyRulesLower
  simp [tagIndicator_finalized, tagRequested_finalized]

theorem applyRulesLower_indicators_subset (s : Session) (lower : String) :
    s.scamIndicators ⊆ (applyRulesLower s lower).scamIndicators := by
  unfold applyRulesLower
  refine List.Subset.trans ?_ (tagIndicator_subset _ _ _)
  refine List.Subset.trans ?_ (tagIndicator_subset _ _ _)
  refine List.Subset.trans ?_ (tagIndicator_subset _ _ _)
  rw [tagRequested_indicators, tagRequested_indicators]
  exact fun a h => h

theorem applyRulesLower_requested_subset (s : Session) (lower : String) :
    s.requestedData ⊆ (applyRulesLower s lower).requestedData := by
  unfold applyRulesLower
  rw [tagIndicator_requested, tagIndicator_requested, tagIndicator_requested]
  exact List.Subset.trans (tagRequested_subset _ _ _) (tagRequested_subset _ _ _)

theorem stepSession_turns (s : Session) (text : String) :
    (stepSession s text).turns = s.turns + 1 := by
  unfold stepSession applyRules
  rw [applyRulesLower_turns]

theorem stepSession_finalized (s : Session) (text : String) :
    (stepSession s text).finalized = s.finalized := by
  unfold stepSession applyRules
  rw [applyRulesLower_finalized]

theorem stepSession_indicators_subset (s : Session) (text : String) :
    s.scamIndicators ⊆ (stepSession s text).scamIndicators := by
  unfold stepSession applyRules
  exact applyRulesLower_indicators_subset { s with turns := s.turns + 1 } (toLowerJS text)

theorem stepSession_requested_subset (s : Session) (text : String) :
    s.requestedData ⊆ (stepSession s text).requestedData := by
  unfold stepSession applyRules
  exact applyRulesLower_requested_subset { s with turns := s.turns + 1 } (toLowerJS text)

theorem storeFind_set_self (st : Store) (sid : String) (s : Session) :
    storeFind (storeSet st sid s) sid = some s := by
  induction st with
  | nil => simp [storeSet, storeFind]
  | cons kv rest ih =>
    obtain ⟨k, v⟩ := kv
    by_cases hk : k = sid
    · simp [storeSet, storeFind, hk]
    · simp [storeSet, storeFind, hk, ih]

theorem storeFind_set_ne (st : Store) (sid sid' : String) (s : Session) (h : sid' ≠ sid) :
    storeFind (storeSet st sid s) sid' = storeFind st sid' := by
  induction st with
  | nil => simp [storeSet, storeFind, Ne.symm h]
  | cons kv rest ih =>
    obtain ⟨k, v⟩ := kv
    by_cases hk : k = sid
    · subst hk
      simp [storeSet, storeFind, Ne.symm h]
    · simp [storeSet, storeFind, hk, ih]

/-! ### Characterization of a single handler invocation -/

/-- The finalization guard applied to the post-extraction session:
`if (state.turns >= 4 && !state.finalized) state.finalized = true`. -/
def finalizeIfDue (s : Session) : Session :=
  if 4 ≤ s.turns ∧ s.finalized = false then { s with finalized := true } else s

theorem finalizeIfDue_turns (s : Session) : (finalizeIfDue s).turns = s.turns := by
  unfold finalizeIfDue; split <;> rfl

theorem finalizeIfDue_indicators (s : Session) :
    (finalizeIfDue s).scamIndicators = s.scamIndicators := by
  unfold finalizeIfDue; split <;> rfl

theorem finalizeIfDue_requested (s : Session) :
    (finalizeIfDue s).requestedData = s.requestedData := by
  unfold finalizeIfDue; split <;> rfl

theorem finalizeIfDue_finalized_true (s : Session) (h : s.finalized = true) :
    (finalizeIfDue s).finalized = true := by
  unfold finalizeIfDue
  split
  · rfl
  · exact h

theorem sessionOf_set_self (st : Store) (sid : String) (s : Session) :
    sessionOf (storeSet st sid s) sid = s := by
  unfold sessionOf
  rw [storeFind_set_self]
  rfl

theorem sessionOf_set_ne (st : Store) (sid sid' : String) (s : Session) (h : sid' ≠ sid) :
    sessionOf (storeSet st sid s) sid' = sessionOf st sid' := by
  unfold sessionOf
  rw [storeFind_set_ne st sid sid' s h]

theorem processed_iff (req : Request) :
    req.processed = true ↔
      req.apiKey = some "dev-key" ∧ jsFalsyStr req.sessionId = false ∧
        jsFalsyStr req.text = false := by
  unfold Request.processed
  simp [Bool.and_eq_true, Bool.not_eq_true', and_assoc]

theorem jsFalsy_devkey : jsFalsyStr (some "dev-key") = false := by decide

theorem handler_processed_eq (st : Store) (req : Request) (o : OracleOutcome)
    (h : req.processed = true) :
    handler st req o = handleMessage st (sidStr req) (req.text.getD "") req.metadata o := by
  obtain ⟨hk, hs, ht⟩ := (processed_iff req).1 h
  unfold handler sidStr
  rw [hk]
  simp [jsFalsy_devkey, hs, ht]

theorem handler_not_processed (st : Store) (req : Request) (o : OracleOutcome)
    (h : req.processed = false) :
    (handler st req o).store = st ∧ (handler st req o).report = none := by
  unfold handler
  split
  · exact ⟨rfl, rfl⟩
  split
  · exact ⟨rfl, rfl⟩
  split
  · exact ⟨rfl, rfl⟩
  rename_i h1 h2 h3
  exfalso
  have hk : req.apiKey = some "dev-key" := not_not.mp h2
  have h3' : (jsFalsyStr req.sessionId || jsFalsyStr req.text) = false := by
    simpa using h3
  have hs : jsFalsyStr req.sessionId = false := by
    rcases Bool.or_eq_false_iff.mp h3' with ⟨a, b⟩
    exact a
  have ht : jsFalsyStr req.text = false := by
    rcases Bool.or_eq_false_iff.mp h3' with ⟨a, b⟩
    exact b
  have hp : req.processed = true := (processed_iff req).2 ⟨hk, hs, ht⟩
  rw [hp] at h
  cases h

theorem handleMessage_status (store : Store) (sid text : String) (md : Metadata)
    (o : OracleOutcome) : (handleMessage store sid text md o).status = 200 := by
  simp only [handleMessage]
  split <;> rfl

theorem handleMessage_body (store : Store) (sid text : String) (md : Metadata)
    (o : OracleOutcome) :
    (handleMessage store sid text md o).body
      = [("status", FieldVal.str "success"),
         ("reply", FieldVal.str (jsOr (generateGeminiReply o)
            (baseReply (turnsOf store sid + 1))))] := by
  simp only [handleMessage]
  split <;> (rw [stepSession_turns]; rfl)

theorem handleMessage_store (store : Store) (sid text : String) (md : Metadata)
    (o : OracleOutcome) :
    (handleMessage store sid text md o).store
      = storeSet store sid (finalizeIfDue (stepSession (sessionOf store sid) text)) := by
  simp only [handleMessage, finalizeIfDue]
  split <;> rfl

theorem handleMessage_report (store : Store) (sid text : String) (md : Metadata)
    (o : OracleOutcome) :
    (handleMessage store sid text md o).report
      = if 4 ≤ (stepSession (sessionOf store sid) text).turns ∧
           (stepSession (sessionOf store sid) text).finalized = false
        then some
          { sessionId := sid
            scamDetected := true
            scamIndicators := (stepSession (sessionOf store sid) text).scamIndicators
            requestedSensitiveData := (stepSession (sessionOf store sid) text).requestedData
            channel := jsOr md.channel "Unknown"
            language := jsOr md.language "Unknown"
            locale := jsOr md.locale "Unknown"
            totalTurns := (stepSession (sessionOf store sid) text).turns }
        else none := by
  simp only [handleMessage]
  split <;> rfl

theorem handler_status_processed (st : Store) (req : Request) (o : OracleOutcome)
    (h : req.processed = true) : (handler st req o).status = 200 := by
  rw [handler_processed_eq st req o h]
  exact handleMessage_status _ _ _ _ _

theorem handler_turns (st : Store) (req : Request) (o : OracleOutcome) (sid : String) :
    turnsOf (handler st req o).store sid
      = turnsOf st sid + (if req.processed = true ∧ sidStr req = sid then 1 else 0) := by
  by_cases hp : req.processed = true
  · rw [handler_processed_eq st req o hp, handleMessage_store]
    by_cases hsid : sidStr req = sid
    · rw [if_pos ⟨hp, hsid⟩]
      subst hsid
      unfold turnsOf
      rw [sessionOf_set_self, finalizeIfDue_turns, stepSession_turns]
    · rw [if_neg (fun hh => hsid hh.2)]
      unfold turnsOf
      rw [sessionOf_set_ne _ _ _ _ (fun hh => hsid hh.symm)]
      omega
  · have hpf : req.processed = false := by simpa using hp
    rw [if_neg (fun hh => hp hh.1), (handler_not_processed st req o hpf).1]
    omega

theorem handler_finalized_mono (st : Store) (req : Request) (o : OracleOutcome) (sid : String)
    (h : finalizedOf st sid = true) :
    finalizedOf (handler st req o).store sid = true := by
  by_cases hp : req.processed = true
  · rw [handler_processed_eq st req o hp, handleMessage_store]
    by_cases hsid : sidStr req = sid
    · subst hsid
      unfold finalizedOf
      rw [sessionOf_set_self]
      apply finalizeIfDue_finalized_true
      rw [stepSession_finalized]
      exact h
    · unfold finalizedOf
      rw [sessionOf_set_ne _ _ _ _ (fun hh => hsid hh.symm)]
      exact h
  · have hpf : req.processed = false := by simpa using hp
    rw [(handler_not_processed st req o hpf).1]
    exact h

theorem handler_indicators_mono (st : Store) (req : Request) (o : OracleOutcome)
    (sid : String) :
    indicatorsOf st sid ⊆ indicatorsOf (handler st req o).store sid := by
  by_cases hp : req.processed = true
  · rw [handler_processed_eq st req o hp, handleMessage_store]
    by_cases hsid : sidStr req = sid
    · subst hsid
      unfold indicatorsOf
      rw [sessionOf_set_self, finalizeIfDue_indicators]
      exact stepSession_indicators_subset _ _
    · unfold indicatorsOf
      rw [sessionOf_set_ne _ _ _ _ (fun hh => hsid hh.symm)]
      exact fun a ha => ha
  · have hpf : req.processed = false := by simpa using hp
    rw [(handler_not_processed st req o hpf).1]
    exact fun a ha => ha

theorem handler_requested_mono (st : Store) (req : Request) (o : OracleOutcome)
    (sid : String) :
    requestedOf st sid ⊆ requestedOf (handler st req o).store sid := by
  by_cases hp : req.processed = true
  · rw [handler_processed_eq st req o hp, handleMessage_store]
    by_cases hsid : sidStr req = sid
    · subst hsid
      unfold requestedOf
      rw [sessionOf_set_self, finalizeIfDue_requested]
      exact stepSession_requested_subset _ _
    · unfold requestedOf
      rw [sessionOf_set_ne _ _ _ _ (fun hh => hsid hh.symm)]
      exact fun a ha => ha
  · have hpf : req.processed = false := by simpa using hp
    rw [(handler_not_processed st req o hpf).1]
    exact fun a ha => ha

theorem handler_report_some (st : Store) (req : Request) (o : OracleOutcome) (r : Report)
    (h : (handler st req o).report = some r) :
    req.processed = true
  ∧ r.sessionId = sidStr req
  ∧ finalizedOf st (sidStr req) = false
  ∧ finalizedOf (handler st req o).store (sidStr req) = true
  ∧ r.scamDetected = true
  ∧ r.totalTurns = turnsOf st (sidStr req) + 1
  ∧ 4 ≤ r.totalTurns
  ∧ r.scamIndicators = indicatorsOf (handler st req o).store (sidStr req)
  ∧ r.requestedSensitiveData = requestedOf (handler st req o).store (sidStr req) := by
  by_cases hp : req.processed = true
  case neg =>
    have hpf : req.processed = false := by simpa using hp
    rw [(handler_not_processed st req o hpf).2] at h
    cases h
  case pos =>
  rw [handler_processed_eq st req o hp] at h ⊢
  rw [handleMessage_report] at h
  by_cases hC : 4 ≤ (stepSession (sessionOf st (sidStr req)) (req.text.getD "")).turns ∧
      (stepSession (sessionOf st (sidStr req)) (req.text.getD "")).finalized = false
  · rw [if_pos hC] at h
    injection h with h'
    subst h'
    refine ⟨hp, rfl, ?_, ?_, rfl, ?_, ?_, ?_, ?_⟩
    · unfold finalizedOf
      rw [← stepSession_finalized (sessionOf st (sidStr req)) (req.text.getD "")]
      exact hC.2
    · rw [handleMessage_store]
      unfold finalizedOf
      rw [sessionOf_set_self]
      unfold finalizeIfDue
      rw [if_pos hC]
    · rw [stepSession_turns]
      rfl
    · exact hC.1
    · rw [handleMessage_store]
      unfold indicatorsOf
      rw [sessionOf_set_self, finalizeIfDue_indicators]
    · rw [handleMessage_store]
      unfold requestedOf
      rw [sessionOf_set_self, finalizeIfDue_requested]
  · rw [if_neg hC] at h
    cases h

theorem handler_report_isSome (st : Store) (req : Request) (o : OracleOutcome)
    (hp : req.processed = true) :
    (handler st req o).report.isSome = true ↔
      (4 ≤ turnsOf st (sidStr req) + 1 ∧ finalizedOf st (sidStr req) = false) := by
  have hcond : (4 ≤ (stepSession (sessionOf st (sidStr req)) (req.text.getD "")).turns ∧
      (stepSession (sessionOf st (sidStr req)) (req.text.getD "")).finalized = false) ↔
      (4 ≤ turnsOf st (sidStr req) + 1 ∧ finalizedOf st (sidStr req) = false) := by
    unfold turnsOf finalizedOf
    rw [stepSession_turns, stepSession_finalized]
  rw [handler_processed_eq st req o hp, handleMessage_report, ← hcond]
  split
  · rename_i hh
    simp [hh]
  · rename_i hh
    simp [hh]

/-! ### Run-level lemmas -/

theorem reportsFor_append (sid : String) (l1 l2 : List Report) :
    reportsFor sid (l1 ++ l2) = reportsFor sid l1 + reportsFor sid l2 := by
  unfold reportsFor
  rw [List.filter_append, List.length_append]

theorem countProcessed_cons (sid : String) (e : Event) (es : List Event) :
    countProcessed sid (e :: es)
      = (if (e.req.processed && (sidStr e.req == sid)) = true then 1 else 0)
        + countProcessed sid es := by
  unfold countProcessed
  rw [List.filter_cons]
  split
  · rw [List.length_cons]
    omega
  · omega

theorem runFrom_cons (st : Store) (e : Event) (es : List Event) :
    runFrom st (e :: es)
      = ((runFrom (handler st e.req e.oracle).store es).1,
         (handler st e.req e.oracle).report.toList
           ++ (runFrom (handler st e.req e.oracle).store es).2) := rfl

theorem runFrom_finalized_mono (es : List Event) (st : Store) (sid : String)
    (h : finalizedOf st sid = true) :
    finalizedOf (runFrom st es).1 sid = true := by
  induction es generalizing st with
  | nil => exact h
  | cons e es ih =>
    rw [runFrom_cons]
    exact ih _ (handler_finalized_mono _ _ _ _ h)

theorem runFrom_no_reports_after_finalized (es : List Event) (st : Store) (sid : String)
    (h : finalizedOf st sid = true) :
    reportsFor sid (runFrom st es).2 = 0 := by
  induction es generalizing st with
  | nil => rfl
  | cons e es ih =>
    rw [runFrom_cons]
    have h2 := ih _ (handler_finalized_mono st e.req e.oracle sid h)
    have h1 : reportsFor sid (handler st e.req e.oracle).report.toList = 0 := by
      cases hr : (handler st e.req e.oracle).report with
      | none => rfl
      | some r =>
        have hsome := handler_report_some st e.req e.oracle r hr
        by_cases hq : r.sessionId = sid
        · exfalso
          have heq : sidStr e.req = sid := by
            rw [← hsome.2.1]
            exact hq
          have hf := hsome.2.2.1
          rw [heq, h] at hf
          cases hf
        · have hqb : (r.sessionId == sid) = false := by simpa using hq
          simp [reportsFor, Option.toList, List.filter, hqb]
    rw [reportsFor_append, h1, h2]

theorem runFrom_reports_le_one (es : List Event) (st : Store) (sid : String) :
    reportsFor sid (runFrom st es).2 ≤ 1 := by
  induction es generalizing st with
  | nil => exact Nat.zero_le 1
  | cons e es ih =>
    rw [runFrom_cons, reportsFor_append]
    cases hr : (handler st e.req e.oracle).report with
    | none =>
      have h0 : reportsFor sid (Option.toList (none : Option Report)) = 0 := rfl
      rw [h0]
      simpa using ih (handler st e.req e.oracle).store
    | some r =>
      have hsome := handler_report_some st e.req e.oracle r hr
      by_cases hq : r.sessionId = sid
      · have hfin : finalizedOf (handler st e.req e.oracle).store sid = true := by
          rw [← hq, hsome.2.1]
          exact hsome.2.2.2.1
        have h0 := runFrom_no_reports_after_finalized es _ sid hfin
        rw [h0]
        have hqb : (r.sessionId == sid) = true := by simpa using hq
        simp [reportsFor, Option.toList, List.filter, hqb]
      · have hqb : (r.sessionId == sid) = false := by simpa using hq
        have h0 : reportsFor sid (Option.toList (some r)) = 0 := by
          simp [reportsFor, Option.toList, List.filter, hqb]
        rw [h0]
        simpa using ih (handler st e.req e.oracle).store

theorem runFrom_turns (es : List Event) (st : Store) (sid : String) :
    turnsOf (runFrom st es).1 sid = turnsOf st sid + countProcessed sid es := by
  induction es generalizing st with
  | nil => rfl
  | cons e es ih =>
    rw [runFrom_cons]
    have hb : (e.req.processed && (sidStr e.req == sid)) = true ↔
        (e.req.processed = true ∧ sidStr e.req = sid) := by
      simp [Bool.and_eq_true]
    rw [countProcessed_cons]
    rw [ih, handler_turns]
    by_cases hc : e.req.processed = true ∧ sidStr e.req = sid
    · rw [if_pos hc, if_pos (hb.mpr hc)]
      omega
    · rw [if_neg hc, if_neg (fun hh => hc (hb.mp hh))]
      omega

/-- Reachable-store invariant: any session whose turn counter has reached the
threshold is already finalized. -/
def StoreInv (st : Store) : Prop :=
  ∀ sid, 4 ≤ turnsOf st sid → finalizedOf st sid = true

theorem storeInv_empty : StoreInv [] := by
  intro sid h
  have h0 : turnsOf [] sid = 0 := rfl
  rw [h0] at h
  exact absurd h (by decide)

theorem handler_preserves_inv (st : Store) (req : Request) (o : OracleOutcome)
    (h : StoreInv st) : StoreInv (handler st req o).store := by
  intro sid hturns
  by_cases hp : req.processed = true
  · rw [handler_processed_eq st req o hp] at hturns ⊢
    rw [handleMessage_store] at hturns ⊢
    by_cases hsid : sidStr req = sid
    · subst hsid
      unfold finalizedOf
      rw [sessionOf_set_self]
      unfold turnsOf at hturns
      rw [sessionOf_set_self, finalizeIfDue_turns] at hturns
      unfold finalizeIfDue
      by_cases hC : 4 ≤ (stepSession (sessionOf st (sidStr req)) (req.text.getD "")).turns ∧
          (stepSession (sessionOf st (sidStr req)) (req.text.getD "")).finalized = false
      · rw [if_pos hC]
      · rw [if_neg hC]
        have hnf : ¬((stepSession (sessionOf st (sidStr req)) (req.text.getD "")).finalized
            = false) := fun hf => hC ⟨hturns, hf⟩
        simpa using hnf
    · unfold turnsOf at hturns
      unfold finalizedOf
      rw [sessionOf_set_ne _ _ _ _ (fun hh => hsid hh.symm)] at hturns ⊢
      exact h sid hturns
  · have hpf : req.processed = false := by simpa using hp
    rw [(handler_not_processed st req o hpf).1] at hturns ⊢
    exact h sid hturns

theorem runFrom_preserves_inv (es : List Event) (st : Store) (h : StoreInv st) :
    StoreInv (runFrom st es).1 := by
  induction es generalizing st with
  | nil => exact h
  | cons e es ih =>
    rw [runFrom_cons]
    exact ih _ (handler_preserves_inv _ _ _ h)

theorem run_inv (es : List Event) : StoreInv (run es).1 :=
  runFrom_preserves_inv es [] storeInv_empty

/-! ### The liveness/detect handler -/

/-- Outcome of `JSON.parse` on the text the detect oracle returned. -/
inductive ParseOutcome where
  | fail
  | ok (isScam : Bool) (reply : String) (scamType : String)
deriving DecidableEq

/-- Environment of one liveness/detect invocation: the fetch/json chain threw,
or it completed and parsing its extracted text had the given outcome. -/
inductive LiveOracle where
  | thrown
  | output (parse : ParseOutcome)
deriving DecidableEq

/-- Request shape read by the liveness/detect handler. -/
structure LiveRequest where
  method : String
  apiKey : Option String
  text : Option String
deriving DecidableEq

/-- The liveness/detect handler: GET answers the liveness probe with 200, other
non-POST methods get 405, a credential differing from `dev-key` gets 401
(missing or invalid alike), a missing/empty `text` gets 400; otherwise the
oracle runs, answering 200 with the parsed structured result or its fixed
fallback, and 500 when the oracle chain throws. -/
def liveHandler (req : LiveRequest) (o : LiveOracle) : Nat × Body :=
  if req.method = "GET" then (200, [("status", FieldVal.str "ok")])
  else if req.method ≠ "POST" then (405, [("error", FieldVal.str "Method not allowed")])
  else if req.apiKey ≠ some "dev-key" then (401, [("error", FieldVal.str "Unauthorized")])
  else if jsFalsyStr req.text then (400, [("error", FieldVal.str "Text is required")])
  else
    match o with
    | .thrown => (500, [("error", FieldVal.str "Gemini failed")])
    | .output .fail =>
        (200, [("isScam", FieldVal.bool false),
               ("reply", FieldVal.str "Okay, thanks for the message!"),
               ("scamType", FieldVal.str "None")])
    | .output (.ok isScam reply scamType) =>
        (200, [("isScam", FieldVal.bool isScam), ("reply", FieldVal.str reply),
               ("scamType", FieldVal.str scamType)])

/-! ### Concrete fixtures used by witnesses and counterexamples -/

/-- A well-formed processed request for session `s` carrying text `t`. -/
def reqS (t : String) : Request :=
  { method := "POST", apiKey := some "dev-key", sessionId := some "s", text := some t,
    metadata := { channel := none, language := none, locale := none } }

/-- An event for session `s` whose oracle call fails. -/
def evS (t : String) : Event := { req := reqS t, oracle := OracleOutcome.failure }

/-- Four benign messages for session `s`: enough to reach the finalization threshold. -/
def evsFour : List Event := [evS "hello", evS "hello", evS "hello", evS "hello"]

/-- A store holding one already-finalized session `s` at the turn threshold. -/
def stFin : Store := [("s", ⟨4, [], [], true⟩)]

/-! ### Claim theorems -/

/-- Claim C1: over any run, at most one finalization report is ever submitted per
session; for a processed message the finalization transition fires exactly when
the post-increment turn counter reaches the fixed threshold 4 on a
not-yet-finalized session; and a processed message for an already-finalized
session performs no further submission and still answers 200 — a no-op, not an
error. -/
theorem finalization_at_most_once :
    (∀ es sid, reportsFor sid (run es).2 ≤ 1)
  ∧ (∀ st req o, Request.processed req = true →
      ((handler st req o).report.isSome = true ↔
        (4 ≤ turnsOf st (sidStr req) + 1 ∧ finalizedOf st (sidStr req) = false)))
  ∧ (∀ st req o, Request.processed req = true → finalizedOf st (sidStr req) = true →
      (handler st req o).report = none ∧ (handler st req o).status = 200) := by
  refine ⟨fun es sid => runFrom_reports_le_one es [] sid,
    fun st req o hp => handler_report_isSome st req o hp,
    fun st req o hp hf => ⟨?_, handler_status_processed st req o hp⟩⟩
  cases hrep : (handler st req o).report with
  | none => rfl
  | some r =>
    have hpre := (handler_report_some st req o r hrep).2.2.1
    rw [hf] at hpre
    cases hpre

/-- Witness for C1: a fifth message on an already-finalized session submits nothing
and is answered 200. -/
theorem finalization_at_most_once_witness :
    (handler stFin (reqS "hello") OracleOutcome.failure).report = none
  ∧ (handler stFin (reqS "hello") OracleOutcome.failure).status = 200 :=
  finalization_at_most_once.2.2 stFin (reqS "hello") OracleOutcome.failure
    (by decide) (by decide)

/-- Counterexample for C2: after four messages finalize session `s`, a fifth inbound
message is NOT rejected as a closed session: it is answered 200, increments the
turn counter to 5 and still adds the new `OTP` tag to the requested-data set. -/
theorem finalized_session_still_mutates :
    finalizedOf (run evsFour).1 "s" = true
  ∧ (handler (run evsFour).1 (reqS "share otp") OracleOutcome.failure).status = 200
  ∧ turnsOf (handler (run evsFour).1 (reqS "share otp") OracleOutcome.failure).store "s" = 5
  ∧ ("OTP" ∉ requestedOf (run evsFour).1 "s")
  ∧ ("OTP" ∈ requestedOf
        (handler (run evsFour).1 (reqS "share otp") OracleOutcome.failure).store "s") := by
  decide

/-- Claim C2 as amended: once finalized = true the flag never resets and no further
report is submitted, but an inbound message handled after finalization is not
rejected as a session-closed condition: it is processed normally, with status
200 and the turn counter incremented (and indicator sets may still grow). -/
theorem finalized_session_processing (st : Store) (req : Request) (o : OracleOutcome)
    (hp : Request.processed req = true) (hf : finalizedOf st (sidStr req) = true) :
    (handler st req o).status = 200
  ∧ (handler st req o).report = none
  ∧ finalizedOf (handler st req o).store (sidStr req) = true
  ∧ turnsOf (handler st req o).store (sidStr req) = turnsOf st (sidStr req) + 1 := by
  refine ⟨handler_status_processed st req o hp, ?_,
    handler_finalized_mono st req o _ hf, ?_⟩
  · cases hrep : (handler st req o).report with
    | none => rfl
    | some r =>
      have hpre := (handler_report_some st req o r hrep).2.2.1
      rw [hf] at hpre
      cases hpre
  · rw [handler_turns st req o (sidStr req), if_pos ⟨hp, rfl⟩]

/-- Witness for the amended C2 at a concrete finalized store. -/
theorem finalized_session_processing_witness :
    (handler stFin (reqS "hi") OracleOutcome.failure).status = 200
  ∧ (handler stFin (reqS "hi") OracleOutcome.failure).report = none
  ∧ finalizedOf (handler stFin (reqS "hi") OracleOutcome.failure).store
      (sidStr (reqS "hi")) = true
  ∧ turnsOf (handler stFin (reqS "hi") OracleOutcome.failure).store (sidStr (reqS "hi"))
      = turnsOf stFin (sidStr (reqS "hi")) + 1 :=
  finalized_session_processing stFin (reqS "hi") OracleOutcome.failure
    (by decide) (by decide)

/-- Claim C3: starting from the empty store, after any run every session's turn
counter equals the number of inbound messages processed for it — 0 at creation,
+1 per processed message, no skips and no double counts. -/
theorem turn_counter_counts_messages (es : List Event) (sid : String) :
    turnsOf (run es).1 sid = countProcessed sid es := by
  have h := runFrom_turns es [] sid
  have h0 : turnsOf [] sid = 0 := rfl
  rw [h0] at h
  simpa using h

/-- Claim C4: the scam-indicator and requested-data sets are monotonically
non-decreasing: across one handled message and across any whole run, every tag
present before remains present after. -/
theorem indicator_sets_monotone :
    (∀ st req o sid, indicatorsOf st sid ⊆ indicatorsOf (handler st req o).store sid
        ∧ requestedOf st sid ⊆ requestedOf (handler st req o).store sid)
  ∧ (∀ st es sid, indicatorsOf st sid ⊆ indicatorsOf (runFrom st es).1 sid
        ∧ requestedOf st sid ⊆ requestedOf (runFrom st es).1 sid) := by
  constructor
  · exact fun st req o sid =>
      ⟨handler_indicators_mono st req o sid, handler_requested_mono st req o sid⟩
  · intro st es sid
    induction es generalizing st with
    | nil => exact ⟨fun a ha => ha, fun a ha => ha⟩
    | cons e es ih =>
      rw [runFrom_cons]
      exact ⟨List.Subset.trans (handler_indicators_mono st e.req e.oracle sid)
          (ih (handler st e.req e.oracle).store).1,
        List.Subset.trans (handler_requested_mono st e.req e.oracle sid)
          (ih (handler st e.req e.oracle).store).2⟩

theorem jsOr_fallback (o : OracleOutcome) (d : String) (h : oracleFails o = true) :
    jsOr (generateGeminiReply o) d = d := by
  cases o with
  | failure => rfl
  | output t =>
    cases t with
    | none => rfl
    | some s =>
      have h' : s.isEmpty = true := h
      simp [generateGeminiReply, jsOr, h']

theorem baseReply_nonempty (n : Nat) : baseReply n ≠ "" := by
  unfold baseReply
  split
  · decide
  split
  · decide
  split
  · decide
  decide

/-- Claim C5: when the oracle fails, times out, or returns empty or missing output,
a processed message is still answered 200 and its reply is exactly the
deterministic baseline for the post-increment turn count, which is never
empty — the failure is not propagated to the caller. -/
theorem oracle_failure_baseline (st : Store) (req : Request) (o : OracleOutcome)
    (hp : Request.processed req = true) (hf : oracleFails o = true) :
    (handler st req o).status = 200
  ∧ fieldVal (handler st req o).body "reply"
      = some (FieldVal.str (baseReply (turnsOf st (sidStr req) + 1)))
  ∧ baseReply (turnsOf st (sidStr req) + 1) ≠ "" := by
  refine ⟨handler_status_processed st req o hp, ?_, baseReply_nonempty _⟩
  rw [handler_processed_eq st req o hp, handleMessage_body, jsOr_fallback o _ hf]
  rfl

/-- Witness for C5 at a concrete failing oracle run. -/
theorem oracle_failure_baseline_witness :
    (handler [] (reqS "hello") OracleOutcome.failure).status = 200
  ∧ fieldVal (handler [] (reqS "hello") OracleOutcome.failure).body "reply"
      = some (FieldVal.str (baseReply (turnsOf [] (sidStr (reqS "hello")) + 1)))
  ∧ baseReply (turnsOf [] (sidStr (reqS "hello")) + 1) ≠ "" :=
  oracle_failure_baseline [] (reqS "hello") OracleOutcome.failure (by decide) (by decide)

/-- Request used by the C6 counterexample: valid credential, sessionId present, no message text. -/
def reqNoText : Request :=
  { method := "POST", apiKey := some "dev-key", sessionId := some "s", text := none,
    metadata := { channel := none, language := none, locale := none } }

/-- Counterexample for C6: a POST with a valid credential whose envelope lacks a
non-empty `message.text` is answered 200 with a canned success reply by the
conversation handler — not 400 as the claim states. -/
theorem gateway_missing_text_not_400 :
    (handler [] reqNoText OracleOutcome.failure).status = 200
  ∧ (handler [] reqNoText OracleOutcome.failure).status ≠ 400 := by
  decide

/-- Claim C6 as amended: the status mapping as implemented. In the conversation
handler: missing (falsy) credential 401, invalid credential 403, and an
authorized POST lacking a non-empty sessionId or message.text is answered 200
with a canned reply, not 400. In the liveness/detect handler: GET 200, POST
with missing-or-wrong credential 401, authorized POST without non-empty text
400. -/
theorem gateway_status_codes :
    (∀ st req o, jsFalsyStr req.apiKey = true → (handler st req o).status = 401)
  ∧ (∀ st req o k, req.apiKey = some k → k ≠ "dev-key" → k.isEmpty = false →
      (handler st req o).status = 403)
  ∧ (∀ st req o, req.apiKey = some "dev-key" →
      (jsFalsyStr req.sessionId || jsFalsyStr req.text) = true →
      (handler st req o).status = 200)
  ∧ (∀ req o, req.method = "GET" → (liveHandler req o).1 = 200)
  ∧ (∀ req o, req.method = "POST" → req.apiKey ≠ some "dev-key" →
      (liveHandler req o).1 = 401)
  ∧ (∀ req o, req.method = "POST" → req.apiKey = some "dev-key" →
      jsFalsyStr req.text = true → (liveHandler req o).1 = 400) := by
  refine ⟨?_, ?_, ?_, ?_, ?_, ?_⟩
  · intro st req o h
    simp [handler, h]
  · intro st req o k hk hne hempty
    unfold handler
    rw [hk]
    simp [jsFalsyStr, hempty, hne]
  · intro st req o hk h
    unfold handler
    rw [hk, h]
    simp [jsFalsy_devkey]
  · intro req o h
    simp [liveHandler, h]
  · intro req o hm hk
    unfold liveHandler
    rw [hm]
    simp [hk]
  · intro req o hm hk ht
    unfold liveHandler
    rw [hm, hk, ht]
    simp

/-- Witness for the amended C6 covering each mapped outcome at a concrete request. -/
theorem gateway_status_codes_witness :
    (handler [] ⟨"POST", none, some "s", some "hi", ⟨none, none, none⟩⟩
        OracleOutcome.failure).status = 401
  ∧ (handler [] ⟨"POST", some "bad", some "s", some "hi", ⟨none, none, none⟩⟩
        OracleOutcome.failure).status = 403
  ∧ (handler [] reqNoText OracleOutcome.failure).status = 200
  ∧ (liveHandler ⟨"GET", none, none⟩ LiveOracle.thrown).1 = 200
  ∧ (liveHandler ⟨"POST", none, some "x"⟩ LiveOracle.thrown).1 = 401
  ∧ (liveHandler ⟨"POST", some "dev-key", none⟩ LiveOracle.thrown).1 = 400 :=
  ⟨gateway_status_codes.1 [] ⟨"POST", none, some "s", some "hi", ⟨none, none, none⟩⟩
      OracleOutcome.failure (by decide),
   gateway_status_codes.2.1 [] ⟨"POST", some "bad", some "s", some "hi", ⟨none, none, none⟩⟩
      OracleOutcome.failure "bad" (by decide) (by decide) (by decide),
   gateway_status_codes.2.2.1 [] reqNoText OracleOutcome.failure (by decide) (by decide),
   gateway_status_codes.2.2.2.1 ⟨"GET", none, none⟩ LiveOracle.thrown (by decide),
   gateway_status_codes.2.2.2.2.1 ⟨"POST", none, some "x"⟩ LiveOracle.thrown
      (by decide) (by decide),
   gateway_status_codes.2.2.2.2.2 ⟨"POST", some "dev-key", none⟩ LiveOracle.thrown
      (by decide) (by decide) (by decide)⟩

/-- Claim C7: the indicator extractor is a pure function of the lowercased text —
deterministic and case-insensitive — and on the two specification examples it
yields exactly the expected indicator and requested-data sets. -/
theorem extractor_contract :
    (∀ t1 t2, toLowerJS t1 = toLowerJS t2 → extract t1 = extract t2)
  ∧ extract "Your account will be blocked in 24 hours, share OTP now"
      = { scamIndicators := ["Threat / Urgency"], requestedData := ["OTP"] }
  ∧ extract "Congrats you won a prize, click this link"
      = { scamIndicators := ["Phishing Link", "Lottery Scam"], requestedData := [] } := by
  refine ⟨?_, by decide, by decide⟩
  intro t1 t2 h
  unfold extract applyRules
  rw [h]

/-- Witness for C7, case-insensitivity on a concrete pair of texts. -/
theorem extractor_contract_witness :
    extract "Share OTP" = extract "share otp" :=
  extractor_contract.1 "Share OTP" "share otp" (by decide)

/-- Claim C8: every report a reachable store emits has totalTurns exactly 4 and
carries exactly the session's accumulated indicator and requested-data sets at
the moment of finalization. -/
theorem report_at_threshold (es : List Event) (req : Request) (o : OracleOutcome)
    (r : Report) (h : (handler (run es).1 req o).report = some r) :
    r.totalTurns = 4
  ∧ r.scamIndicators = indicatorsOf (handler (run es).1 req o).store r.sessionId
  ∧ r.requestedSensitiveData = requestedOf (handler (run es).1 req o).store r.sessionId := by
  obtain ⟨hp, hsid, hpre, hpost, hdet, htot, hle, hind, hreqd⟩ :=
    handler_report_some (run es).1 req o r h
  refine ⟨?_, ?_, ?_⟩
  · by_cases hge : 4 ≤ turnsOf (run es).1 (sidStr req)
    · have hfin := run_inv es (sidStr req) hge
      rw [hpre] at hfin
      cases hfin
    · omega
  · rw [hsid]
    exact hind
  · rw [hsid]
    exact hreqd

/-- The report the C8 witness run emits. -/
def repW : Report :=
  { sessionId := "s", scamDetected := true, scamIndicators := [],
    requestedSensitiveData := ["OTP"], channel := "Unknown", language := "Unknown",
    locale := "Unknown", totalTurns := 4 }

/-- Witness for C8: three benign messages then an `otp` message finalize session
`s` with totalTurns 4 and the accumulated sets. -/
theorem report_at_threshold_witness :
    repW.totalTurns = 4
  ∧ repW.scamIndicators = indicatorsOf
      (handler (run [evS "hi", evS "hi", evS "hi"]).1 (reqS "share otp now")
        OracleOutcome.failure).store repW.sessionId
  ∧ repW.requestedSensitiveData = requestedOf
      (handler (run [evS "hi", evS "hi", evS "hi"]).1 (reqS "share otp now")
        OracleOutcome.failure).store repW.sessionId :=
  report_at_threshold [evS "hi", evS "hi", evS "hi"] (reqS "share otp now")
    OracleOutcome.failure repW (by decide)

/-- Counterexample for C9: a successful handling is answered 200 but its body has
exactly the `status` and `reply` fields — there is no `scamDetected` boolean. -/
theorem success_body_no_scamdetected :
    (handler [] (reqS "hey") OracleOutcome.failure).status = 200
  ∧ ((handler [] (reqS "hey") OracleOutcome.failure).body.map Prod.fst)
      = ["status", "reply"]
  ∧ fieldVal (handler [] (reqS "hey") OracleOutcome.failure).body "scamDetected" = none := by
  decide

/-- Claim C9 as amended: every processed message is answered 200 with a body holding
exactly a `status` field equal to "success" and a string `reply`; no
`scamDetected` field is included. -/
theorem success_response_shape (st : Store) (req : Request) (o : OracleOutcome)
    (hp : Request.processed req = true) :
    (handler st req o).status = 200
  ∧ (handler st req o).body
      = [("status", FieldVal.str "success"),
         ("reply", FieldVal.str (jsOr (generateGeminiReply o)
            (baseReply (turnsOf st (sidStr req) + 1))))]
  ∧ fieldVal (handler st req o).body "scamDetected" = none := by
  refine ⟨handler_status_processed st req o hp, ?_, ?_⟩
  · rw [handler_processed_eq st req o hp]
    exact handleMessage_body st (sidStr req) (req.text.getD "") req.metadata o
  · rw [handler_processed_eq st req o hp, handleMessage_body]
    rfl

/-- Witness for the amended C9 at a concrete processed request. -/
theorem success_response_shape_witness :
    (handler [] (reqS "hey there") OracleOutcome.failure).status = 200
  ∧ (handler [] (reqS "hey there") OracleOutcome.failure).body
      = [("status", FieldVal.str "success"),
         ("reply", FieldVal.str (jsOr (generateGeminiReply OracleOutcome.failure)
            (baseReply (turnsOf [] (sidStr (reqS "hey there")) + 1))))]
  ∧ fieldVal (handler [] (reqS "hey there") OracleOutcome.failure).body "scamDetected"
      = none :=
  success_response_shape [] (reqS "hey there") OracleOutcome.failure (by decide)

/-- Claim C10: every finalization payload the engine ever submits carries
scamDetected = true, irrespective of what was extracted or detected. -/
theorem report_scamdetected_always_true (st : Store) (req : Request) (o : OracleOutcome)
    (r : Report) (h : (handler st req o).report = some r) :
    r.scamDetected = true :=
  (handler_report_some st req o r h).2.2.2.2.1

/-- The report the C10 witness step emits. -/
def repW10 : Report :=
  { sessionId := "s", scamDetected := true, scamIndicators := [],
    requestedSensitiveData := [], channel := "Unknown", language := "Unknown",
    locale := "Unknown", totalTurns := 4 }

/-- Witness for C10: a session with no extracted indicators still reports
scamDetected = true at finalization. -/
theorem report_scamdetected_always_true_witness :
    repW10.scamDetected = true :=
  report_scamdetected_always_true [("s", ⟨3, [], [], false⟩)] (reqS "hi")
    OracleOutcome.failure repW10 (by decide)

end Honeypot
